import Mathlib

/-!
Verification of the `rbatis-wrapper` query-builder core (`src/wrapper.rs`).

The embedding models:
* `Page<T>` and `Page::new` (the `u64` expression `(total + page_size - 1) / page_size`
  panics in Rust when `page_size = 0`, via subtraction underflow when `total = 0` and
  via division by zero otherwise; this is modelled by an `Option` result.  Wraparound
  at `2^64` is not modelled: totals are row counts far below the `u64` bound.)
* `QueryWrapper` with its fluent methods, `build_sql` and `build_count_sql`.
* The executing operations `query`, `delete` and `page`.  The external `RBatis`
  client is abstracted as a record of pure decode functions, and each executing
  operation additionally returns the list of SQL strings it submitted, in order,
  so that "how many queries were issued" is a provable statement.  Client-side
  errors (which the source only propagates) are outside the model.
-/

/- ### String helpers: Rust's `str::contains` and `str::to_uppercase` -/

/-- Does the character list `s` start with the pattern `pat`?  (Models the prefix
check underlying Rust's substring search.) -/
def listHasPre (pat s : List Char) : Bool :=
  match pat, s with
  | [], _ => true
  | _ :: _, [] => false
  | p :: ps, c :: cs => p == c && listHasPre ps cs

/-- Does the character list `s` contain `pat` as a contiguous sublist? -/
def listHasSub (pat s : List Char) : Bool :=
  match s with
  | [] => pat.isEmpty
  | _ :: cs => listHasPre pat s || listHasSub pat cs

/-- Rust's `haystack.contains(pat)` on strings: contiguous-substring containment. -/
def strContainsSub (haystack pat : String) : Bool :=
  listHasSub pat.data haystack.data

/-- Rust's `str::to_uppercase`, restricted to its ASCII action (the only part
the `"WHERE"` detection can observe). -/
def strUpper (s : String) : String :=
  ⟨s.data.map Char.toUpper⟩

/- ### `Page<T>` (wrapper.rs lines 6–30) -/

/-- The pagination result container `Page<T>`. -/
structure Page (T : Type) where
  records : List T
  total : Nat
  page_no : Nat
  page_size : Nat
  pages : Nat
  has_next : Bool
  deriving Repr, DecidableEq

/-- `Page::new`: `pages = (total + page_size - 1) / page_size`,
`has_next = page_no < pages`.  On `u64` the expression panics when
`total + page_size = 0` (subtraction underflow) and when `page_size = 0`
(division by zero); both panics are modelled as `none`. -/
def Page.new (T : Type) (records : List T) (total page_no page_size : Nat) :
    Option (Page T) :=
  if total + page_size = 0 then
    none
  else if page_size = 0 then
    none
  else
    let pages := (total + page_size - 1) / page_size
    some ⟨records, total, page_no, page_size, pages, decide (page_no < pages)⟩

/- ### `QueryWrapper` state (wrapper.rs lines 59–68) -/

/-- The fluent SQL builder's accumulated state. -/
structure QueryWrapper where
  where_conditions : List String
  order_by : List String
  select_columns : List String
  limit : Option Nat
  offset : Option Nat
  custom_sql : Option String
  join_conditions : List String
  deriving Repr, DecidableEq

namespace QueryWrapper

/-- `QueryWrapper::new` = `Self::default()`: everything empty / unset. -/
def new : QueryWrapper :=
  ⟨[], [], [], none, none, none, []⟩

/-- `eq`: push `"{column} = '{value}'"` (the value given in stringified form). -/
def eq (w : QueryWrapper) (column value : String) : QueryWrapper :=
  { w with where_conditions :=
      w.where_conditions ++ [column ++ " = '" ++ value ++ "'"] }

/-- `ne`: push `"{column} != '{value}'"`. -/
def ne (w : QueryWrapper) (column value : String) : QueryWrapper :=
  { w with where_conditions :=
      w.where_conditions ++ [column ++ " != '" ++ value ++ "'"] }

/-- `gt`: push `"{column} > '{value}'"`. -/
def gt (w : QueryWrapper) (column value : String) : QueryWrapper :=
  { w with where_conditions :=
      w.where_conditions ++ [column ++ " > '" ++ value ++ "'"] }

/-- `lt`: push `"{column} < '{value}'"`. -/
def lt (w : QueryWrapper) (column value : String) : QueryWrapper :=
  { w with where_conditions :=
      w.where_conditions ++ [column ++ " < '" ++ value ++ "'"] }

/-- `like`: push `"{column} LIKE '%{value}%'"`. -/
def like (w : QueryWrapper) (column value : String) : QueryWrapper :=
  { w with where_conditions :=
      w.where_conditions ++ [column ++ " LIKE '%" ++ value ++ "%'"] }

/-- `select`: replace the projection list. -/
def select (w : QueryWrapper) (columns : List String) : QueryWrapper :=
  { w with select_columns := columns }

/-- `order_by`: push `"{column} ASC"` or `"{column} DESC"`. -/
def order_by' (w : QueryWrapper) (column : String) (asc : Bool) : QueryWrapper :=
  { w with order_by :=
      w.order_by ++ [column ++ " " ++ (if asc then "ASC" else "DESC")] }

/-- `limit`: set the limit bound (last call wins). -/
def limit' (w : QueryWrapper) (l : Nat) : QueryWrapper :=
  { w with limit := some l }

/-- `offset`: set the offset bound (last call wins). -/
def offset' (w : QueryWrapper) (o : Nat) : QueryWrapper :=
  { w with offset := some o }

/-- `custom_sql`: set the raw SQL override (last call wins). -/
def custom_sql' (w : QueryWrapper) (sql : String) : QueryWrapper :=
  { w with custom_sql := some sql }

/-- `inner_join`: push `"INNER JOIN {table} ON {cond}"`. -/
def inner_join (w : QueryWrapper) (table cond : String) : QueryWrapper :=
  { w with join_conditions :=
      w.join_conditions ++ ["INNER JOIN " ++ table ++ " ON " ++ cond] }

/-- `left_join`: push `"LEFT JOIN {table} ON {cond}"`. -/
def left_join (w : QueryWrapper) (table cond : String) : QueryWrapper :=
  { w with join_conditions :=
      w.join_conditions ++ ["LEFT JOIN " ++ table ++ " ON " ++ cond] }

/-- `right_join`: push `"RIGHT JOIN {table} ON {cond}"`. -/
def right_join (w : QueryWrapper) (table cond : String) : QueryWrapper :=
  { w with join_conditions :=
      w.join_conditions ++ ["RIGHT JOIN " ++ table ++ " ON " ++ cond] }

/- ### SQL rendering (wrapper.rs lines 154–221) -/

/-- `build_sql`.  Custom path: start from the raw string; if WHERE predicates
exist, append `" WHERE "` unless the uppercased string contains `"WHERE"`, else
`" AND "`, then the AND-joined predicates; then ORDER BY, LIMIT, OFFSET.
Generated path: `SELECT <cols> FROM <table>`, joins, WHERE, ORDER BY, LIMIT,
OFFSET. -/
def build_sql (w : QueryWrapper) (table_name : String) : String :=
  match w.custom_sql with
  | some custom_sql =>
    let sql := custom_sql
    let sql :=
      if w.where_conditions.isEmpty then sql
      else
        (if strContainsSub (strUpper sql) "WHERE" then sql ++ " AND "
         else sql ++ " WHERE ") ++
        String.intercalate " AND " w.where_conditions
    let sql :=
      if w.order_by.isEmpty then sql
      else sql ++ " ORDER BY " ++ String.intercalate ", " w.order_by
    let sql :=
      match w.limit with
      | some l => sql ++ " LIMIT " ++ toString l
      | none => sql
    let sql :=
      match w.offset with
      | some o => sql ++ " OFFSET " ++ toString o
      | none => sql
    sql
  | none =>
    let sel :=
      if w.select_columns.isEmpty then "*"
      else String.intercalate ", " w.select_columns
    let sql := "SELECT " ++ sel ++ " FROM " ++ table_name
    let sql :=
      if w.join_conditions.isEmpty then sql
      else sql ++ " " ++ String.intercalate " " w.join_conditions
    let sql :=
      if w.where_conditions.isEmpty then sql
      else sql ++ " WHERE " ++ String.intercalate " AND " w.where_conditions
    let sql :=
      if w.order_by.isEmpty then sql
      else sql ++ " ORDER BY " ++ String.intercalate ", " w.order_by
    let sql :=
      match w.limit with
      | some l => sql ++ " LIMIT " ++ toString l
      | none => sql
    let sql :=
      match w.offset with
      | some o => sql ++ " OFFSET " ++ toString o
      | none => sql
    sql

/-- `build_count_sql` (wrapper.rs lines 276–309).  Custom path: merge the WHERE
predicates into the inner SQL with the same heuristic as `build_sql`, then wrap
as `SELECT COUNT(*) FROM (<inner>) as t`.  Generated path:
`SELECT COUNT(*) FROM <table>` plus joins plus WHERE.  No ORDER BY / LIMIT /
OFFSET on either path. -/
def build_count_sql (w : QueryWrapper) (table_name : String) : String :=
  match w.custom_sql with
  | some custom_sql =>
    let inner_sql := custom_sql
    let inner_sql :=
      if w.where_conditions.isEmpty then inner_sql
      else
        (if strContainsSub (strUpper inner_sql) "WHERE" then inner_sql ++ " AND "
         else inner_sql ++ " WHERE ") ++
        String.intercalate " AND " w.where_conditions
    "SELECT COUNT(*) FROM (" ++ inner_sql ++ ") as t"
  | none =>
    let sql := "SELECT COUNT(*) FROM " ++ table_name
    let sql :=
      if w.join_conditions.isEmpty then sql
      else sql ++ " " ++ String.intercalate " " w.join_conditions
    let sql :=
      if w.where_conditions.isEmpty then sql
      else sql ++ " WHERE " ++ String.intercalate " AND " w.where_conditions
    sql

end QueryWrapper

/- ### The external client and the executing operations -/

/-- The external `RBatis` client, abstracted as pure decode functions: what a
given SQL string decodes to as a count, as a row list, and as an affected-row
count.  (The source only forwards client errors, so the model is error-free.) -/
structure Client (T : Type) where
  query_decode_count : String → Nat
  query_decode_rows : String → List T
  exec_rows_affected : String → Nat

namespace QueryWrapper

/-- `query` (wrapper.rs lines 223–230): render via `build_sql`, submit, decode.
Returns the decoded rows and the submitted-SQL trace. -/
def query (T : Type) (w : QueryWrapper) (c : Client T) (table_name : String) :
    List T × List String :=
  let sql := w.build_sql table_name
  (c.query_decode_rows sql, [sql])

/-- `delete` (wrapper.rs lines 241–247): set `custom_sql` to
`"delete from {table}"`, render via `build_sql`, execute, return
`rows_affected`.  Returns the count and the submitted-SQL trace. -/
def delete (T : Type) (w : QueryWrapper) (c : Client T) (table_name : String) :
    Nat × List String :=
  let delete_sql := "delete from " ++ table_name
  let sql := (w.custom_sql' delete_sql).build_sql table_name
  (c.exec_rows_affected sql, [sql])

/-- `page` (wrapper.rs lines 249–274): run the count query; if `total > 0`,
clone, overwrite limit with `page_size` and offset with
`(page_no - 1) * page_size`, run the data query, and build the page; otherwise
return the empty page without a data query.  Returns the (possibly panicking,
hence `Option`) page and the submitted-SQL trace. -/
def page (T : Type) (w : QueryWrapper) (c : Client T) (table_name : String)
    (page_no page_size : Nat) : Option (Page T) × List String :=
  let count_sql := w.build_count_sql table_name
  let total := c.query_decode_count count_sql
  if total > 0 then
    let offset := (page_no - 1) * page_size
    let wrapper := (w.limit' page_size).offset' offset
    let records := c.query_decode_rows (wrapper.build_sql table_name)
    (Page.new T records total page_no page_size,
      [count_sql, wrapper.build_sql table_name])
  else
    (Page.new T [] 0 page_no page_size, [count_sql])

end QueryWrapper

/- ### Spec-side rendering segments (spec.md §4.2, for refinement statements) -/

/-- Spec §4.2: `<columns>` is `*` if no projection set, else the comma-joined list. -/
def selectSeg (cols : List String) : String :=
  if cols.isEmpty then "*" else String.intercalate ", " cols

/-- Spec §4.2: join clauses, space-joined, preceded by a space; empty if none. -/
def joinSeg (js : List String) : String :=
  if js.isEmpty then "" else " " ++ String.intercalate " " js

/-- Spec §4.2: `" WHERE "` plus the AND-joined predicates; empty if none. -/
def whereSeg (conds : List String) : String :=
  if conds.isEmpty then "" else " WHERE " ++ String.intercalate " AND " conds

/-- Spec §4.2: `" ORDER BY "` plus the comma-joined entries; empty if none. -/
def orderSeg (obs : List String) : String :=
  if obs.isEmpty then "" else " ORDER BY " ++ String.intercalate ", " obs

/-- Spec §4.2: `" LIMIT n"` when the limit is set; empty otherwise. -/
def limitSeg : Option Nat → String
  | some l => " LIMIT " ++ toString l
  | none => ""

/-- Spec §4.2: `" OFFSET n"` when the offset is set; empty otherwise. -/
def offsetSeg : Option Nat → String
  | some o => " OFFSET " ++ toString o
  | none => ""

/-- Spec §4.2 custom-SQL heuristic: append `" WHERE "` when the uppercased raw
string does not contain `"WHERE"`, else `" AND "`, then the AND-joined
predicates. -/
def mergedWhere (s : String) (conds : List String) : String :=
  (if strContainsSub (strUpper s) "WHERE" then s ++ " AND " else s ++ " WHERE ") ++
    String.intercalate " AND " conds

/- ### Condition-call sequences (for the accumulation claim) -/

/-- One call to a condition method of the builder. -/
inductive CondCall where
  | ceq (column value : String)
  | cne (column value : String)
  | cgt (column value : String)
  | clt (column value : String)
  | clike (column value : String)
  deriving Repr, DecidableEq

/-- Apply one condition call to a builder. -/
def applyCall (w : QueryWrapper) : CondCall → QueryWrapper
  | .ceq c v => w.eq c v
  | .cne c v => w.ne c v
  | .cgt c v => w.gt c v
  | .clt c v => w.lt c v
  | .clike c v => w.like c v

/-- The predicate string a condition call renders. -/
def predOf : CondCall → String
  | .ceq c v => c ++ " = '" ++ v ++ "'"
  | .cne c v => c ++ " != '" ++ v ++ "'"
  | .cgt c v => c ++ " > '" ++ v ++ "'"
  | .clt c v => c ++ " < '" ++ v ++ "'"
  | .clike c v => c ++ " LIKE '%" ++ v ++ "%'"

/- ### Helper lemmas -/

/-- The `u64` rounding-up expression computes the rational ceiling. -/
theorem pages_eq_ceil (t ps : ℕ) (hps : 0 < ps) :
    (t + ps - 1) / ps = ⌈(t : ℚ) / (ps : ℚ)⌉₊ := by
  rcases Nat.eq_zero_or_pos t with ht | ht
  · subst ht
    rw [Nat.zero_add, Nat.div_eq_of_lt (Nat.sub_lt hps Nat.one_pos),
      Nat.cast_zero, zero_div, Nat.ceil_zero]
  · have h1 : t ≤ ((t + ps - 1) / ps) * ps := by
      have hdm := Nat.div_add_mod (t + ps - 1) ps
      have hml : (t + ps - 1) % ps < ps := Nat.mod_lt _ hps
      have ecomm : ps * ((t + ps - 1) / ps) = ((t + ps - 1) / ps) * ps :=
        Nat.mul_comm _ _
      omega
    have h2 : (((t + ps - 1) / ps) - 1) * ps < t := by
      have hdm := Nat.div_add_mod (t + ps - 1) ps
      have hml : (t + ps - 1) % ps < ps := Nat.mod_lt _ hps
      have e2 : (((t + ps - 1) / ps) - 1) * ps = ((t + ps - 1) / ps) * ps - ps := by
        rw [Nat.sub_mul, Nat.one_mul]
      have ecomm : ps * ((t + ps - 1) / ps) = ((t + ps - 1) / ps) * ps :=
        Nat.mul_comm _ _
      omega
    have hd0 : (t + ps - 1) / ps ≠ 0 := by
      intro h0
      rw [h0, Nat.zero_mul] at h1
      omega
    have hq : (0 : ℚ) < (ps : ℚ) := by exact_mod_cast hps
    symm
    rw [Nat.ceil_eq_iff hd0]
    constructor
    · rw [lt_div_iff₀ hq]
      exact_mod_cast h2
    · rw [div_le_iff₀ hq]
      exact_mod_cast h1

/- ### Claim theorems -/

/-- C2: for `page_size > 0`, `Page::new` succeeds with
`pages = ceiling(total / page_size)` (stated as a rational ceiling) and
`has_next = (page_no < pages)`. -/
theorem Page_new_pages_ceiling (T : Type) (records : List T)
    (total page_no page_size : Nat) (h : 0 < page_size) :
    Page.new T records total page_no page_size =
      some ⟨records, total, page_no, page_size,
        ⌈(total : ℚ) / (page_size : ℚ)⌉₊,
        decide (page_no < ⌈(total : ℚ) / (page_size : ℚ)⌉₊)⟩ := by
  unfold Page.new
  rw [if_neg (by omega : ¬ (total + page_size = 0)),
    if_neg (by omega : ¬ (page_size = 0))]
  show (some ⟨records, total, page_no, page_size,
      (total + page_size - 1) / page_size,
      decide (page_no < (total + page_size - 1) / page_size)⟩ : Option (Page T)) = _
  rw [pages_eq_ceil total page_size h]

/-- C2 witness: `total=25, page_no=2, page_size=10` gives `pages=3`,
`has_next=true`; `total=0, page_no=1, page_size=10` gives `pages=0`,
`has_next=false`. -/
theorem Page_new_pages_ceiling_witness :
    (0 < 10) ∧
    (Page.new Nat [1, 2] 25 2 10 =
      some ⟨[1, 2], 25, 2, 10, ⌈((25 : ℕ) : ℚ) / ((10 : ℕ) : ℚ)⌉₊,
        decide (2 < ⌈((25 : ℕ) : ℚ) / ((10 : ℕ) : ℚ)⌉₊)⟩) ∧
    (Page.new Nat [] 0 1 10 =
      some ⟨[], 0, 1, 10, ⌈((0 : ℕ) : ℚ) / ((10 : ℕ) : ℚ)⌉₊,
        decide (1 < ⌈((0 : ℕ) : ℚ) / ((10 : ℕ) : ℚ)⌉₊)⟩) ∧
    Page.new Nat [1, 2] 25 2 10 = some ⟨[1, 2], 25, 2, 10, 3, true⟩ ∧
    Page.new Nat [] 0 1 10 = some ⟨[], 0, 1, 10, 0, false⟩ :=
  ⟨by decide,
   Page_new_pages_ceiling Nat [1, 2] 25 2 10 (by decide),
   Page_new_pages_ceiling Nat [] 0 1 10 (by decide),
   by decide,
   by decide⟩

/-- C10: the `pages` division is well-defined whenever `page_size > 0`, and
`page_size = 0` makes `Page::new` fail (modelled `none`: on `u64` the
expression `(total + page_size - 1) / page_size` underflows or divides by
zero). -/
theorem Page_new_zero_page_size (T : Type) (records : List T) (total page_no : Nat) :
    (∀ page_size, 0 < page_size →
      (Page.new T records total page_no page_size).isSome = true) ∧
    Page.new T records total page_no 0 = none := by
  constructor
  · intro ps hps
    unfold Page.new
    rw [if_neg (by omega : ¬ (total + ps = 0)), if_neg (by omega : ¬ (ps = 0))]
    rfl
  · unfold Page.new
    by_cases h : total + 0 = 0
    · rw [if_pos h]
    · rw [if_neg h, if_pos rfl]

/-- C10 witness: `Page::new` is defined at `page_size = 3` and undefined at
`page_size = 0`. -/
theorem Page_new_zero_page_size_witness :
    (0 < 3) ∧ (Page.new Nat [5] 7 1 3).isSome = true ∧
      Page.new Nat [5] 7 1 0 = none :=
  ⟨by decide, (Page_new_zero_page_size Nat [5] 7 1).1 3 (by decide),
   (Page_new_zero_page_size Nat [5] 7 1).2⟩

/-- C3: with `custom_sql` unset, `build_sql` is exactly
`SELECT <cols> FROM <table>` followed by joins, WHERE, ORDER BY, LIMIT and
OFFSET segments, each present only when set and always in that order. -/
theorem build_sql_generated (w : QueryWrapper) (t : String)
    (h : w.custom_sql = none) :
    w.build_sql t =
      "SELECT " ++ selectSeg w.select_columns ++ " FROM " ++ t ++
        joinSeg w.join_conditions ++ whereSeg w.where_conditions ++
        orderSeg w.order_by ++ limitSeg w.limit ++ offsetSeg w.offset := by
  obtain ⟨wc, ob, sc, lim, off, cs, jc⟩ := w
  simp only at h
  subst h
  simp only [QueryWrapper.build_sql, selectSeg, joinSeg, whereSeg, orderSeg,
    limitSeg, offsetSeg]
  cases sc <;> cases jc <;> cases wc <;> cases ob <;> cases lim <;> cases off <;>
    simp [String.append_assoc, String.append_empty]

/-- C3 witness: a fresh builder renders `"SELECT * FROM t"`. -/
theorem build_sql_generated_witness :
    QueryWrapper.new.custom_sql = none ∧
    (QueryWrapper.new.build_sql "t" =
      "SELECT " ++ selectSeg [] ++ " FROM " ++ "t" ++ joinSeg [] ++ whereSeg [] ++
        orderSeg [] ++ limitSeg none ++ offsetSeg none) ∧
    QueryWrapper.new.build_sql "t" = "SELECT * FROM t" :=
  ⟨rfl, build_sql_generated QueryWrapper.new "t" rfl, by decide⟩

/-- C1: with `custom_sql = some s` and non-empty WHERE predicates, `build_sql`
appends the AND-joined predicates to `s` behind `" WHERE "` when the uppercased
`s` does not contain `"WHERE"` and behind `" AND "` when it does, and
`build_count_sql` applies the identical rule to the inner SQL before wrapping
it. -/
theorem custom_sql_where_heuristic (w : QueryWrapper) (s t : String)
    (hs : w.custom_sql = some s) (hne : w.where_conditions ≠ []) :
    w.build_sql t =
        mergedWhere s w.where_conditions ++ orderSeg w.order_by ++
          limitSeg w.limit ++ offsetSeg w.offset ∧
    w.build_count_sql t =
        "SELECT COUNT(*) FROM (" ++ mergedWhere s w.where_conditions ++ ") as t" := by
  obtain ⟨wc, ob, sc, lim, off, cs, jc⟩ := w
  simp only at hs hne
  subst hs
  simp only [QueryWrapper.build_sql, QueryWrapper.build_count_sql, mergedWhere,
    orderSeg, limitSeg, offsetSeg]
  cases wc with
  | nil => exact absurd rfl hne
  | cons a as =>
    cases hb : strContainsSub (strUpper s) "WHERE" <;> cases ob <;> cases lim <;>
      cases off <;> simp [String.append_assoc, String.append_empty]

/-- C1 witness: `"SELECT * FROM t"` gets `" WHERE id = '1'"` appended, while
`"SELECT * FROM t WHERE x=1"` gets `" AND id = '1'"` appended, in both
renderers. -/
theorem custom_sql_where_heuristic_witness :
    ((QueryWrapper.build_sql
        ⟨["id = '1'"], [], [], none, none, some "SELECT * FROM t", []⟩ "t" =
          mergedWhere "SELECT * FROM t" ["id = '1'"] ++ orderSeg [] ++
            limitSeg none ++ offsetSeg none ∧
      QueryWrapper.build_count_sql
        ⟨["id = '1'"], [], [], none, none, some "SELECT * FROM t", []⟩ "t" =
          "SELECT COUNT(*) FROM (" ++
            mergedWhere "SELECT * FROM t" ["id = '1'"] ++ ") as t") ∧
     (QueryWrapper.build_sql
        ⟨["id = '1'"], [], [], none, none, some "SELECT * FROM t WHERE x=1", []⟩ "t" =
          mergedWhere "SELECT * FROM t WHERE x=1" ["id = '1'"] ++ orderSeg [] ++
            limitSeg none ++ offsetSeg none ∧
      QueryWrapper.build_count_sql
        ⟨["id = '1'"], [], [], none, none, some "SELECT * FROM t WHERE x=1", []⟩ "t" =
          "SELECT COUNT(*) FROM (" ++
            mergedWhere "SELECT * FROM t WHERE x=1" ["id = '1'"] ++ ") as t")) ∧
    QueryWrapper.build_sql
        ⟨["id = '1'"], [], [], none, none, some "SELECT * FROM t", []⟩ "t" =
      "SELECT * FROM t WHERE id = '1'" ∧
    QueryWrapper.build_sql
        ⟨["id = '1'"], [], [], none, none, some "SELECT * FROM t WHERE x=1", []⟩ "t" =
      "SELECT * FROM t WHERE x=1 AND id = '1'" :=
  ⟨⟨custom_sql_where_heuristic _ "SELECT * FROM t" "t" rfl (by decide),
    custom_sql_where_heuristic _ "SELECT * FROM t WHERE x=1" "t" rfl (by decide)⟩,
   by decide, by decide⟩

/-- C4: `build_count_sql` is independent of the `order_by`, `limit` and
`offset` fields, and its result is exactly the count shape (custom path:
`SELECT COUNT(*) FROM (<inner>) as t`; generated path:
`SELECT COUNT(*) FROM <table>` plus joins plus WHERE) with no ORDER BY, LIMIT
or OFFSET clause appended. -/
theorem build_count_sql_no_paging (w : QueryWrapper) (t : String)
    (ob : List String) (l o : Option Nat) :
    ({ w with order_by := ob, limit := l, offset := o } : QueryWrapper).build_count_sql t =
        w.build_count_sql t ∧
    w.build_count_sql t =
      (match w.custom_sql with
       | some s => "SELECT COUNT(*) FROM (" ++
           (if w.where_conditions.isEmpty then s
            else mergedWhere s w.where_conditions) ++ ") as t"
       | none => "SELECT COUNT(*) FROM " ++ t ++ joinSeg w.join_conditions ++
           whereSeg w.where_conditions) := by
  obtain ⟨wc, ob0, sc, lim, off, cs, jc⟩ := w
  constructor
  · cases cs <;> rfl
  · simp only [QueryWrapper.build_count_sql, mergedWhere, joinSeg, whereSeg]
    cases cs with
    | some s =>
      cases wc <;> simp [String.append_assoc, String.append_empty]
    | none =>
      cases wc <;> cases jc <;> simp [String.append_assoc, String.append_empty]

/-- C8: once `custom_sql` is set, neither `build_sql` nor `build_count_sql`
consults `select_columns` or `join_conditions`: changing those fields leaves
both rendered strings unchanged. -/
theorem custom_sql_ignores_select_join (w : QueryWrapper) (s t : String)
    (hs : w.custom_sql = some s) (sc jc : List String) :
    ({ w with select_columns := sc, join_conditions := jc } : QueryWrapper).build_sql t =
        w.build_sql t ∧
    ({ w with select_columns := sc, join_conditions := jc } : QueryWrapper).build_count_sql t =
        w.build_count_sql t := by
  obtain ⟨wc, ob, sc0, lim, off, cs, jc0⟩ := w
  simp only at hs
  subst hs
  exact ⟨rfl, rfl⟩

/-- C8 witness: replacing the projection and join state of a builder with
custom SQL set changes neither rendered string. -/
theorem custom_sql_ignores_select_join_witness :
    ({ (⟨["a = '1'"], ["x ASC"], ["c1"], some 5, some 6, some "select 1 from m",
        ["INNER JOIN j ON 1=1"]⟩ : QueryWrapper) with
      select_columns := ["zz"], join_conditions := ["LEFT JOIN q ON 2=2"] } :
        QueryWrapper).build_sql "t" =
      QueryWrapper.build_sql
        ⟨["a = '1'"], ["x ASC"], ["c1"], some 5, some 6, some "select 1 from m",
          ["INNER JOIN j ON 1=1"]⟩ "t" ∧
    ({ (⟨["a = '1'"], ["x ASC"], ["c1"], some 5, some 6, some "select 1 from m",
        ["INNER JOIN j ON 1=1"]⟩ : QueryWrapper) with
      select_columns := ["zz"], join_conditions := ["LEFT JOIN q ON 2=2"] } :
        QueryWrapper).build_count_sql "t" =
      QueryWrapper.build_count_sql
        ⟨["a = '1'"], ["x ASC"], ["c1"], some 5, some 6, some "select 1 from m",
          ["INNER JOIN j ON 1=1"]⟩ "t" :=
  custom_sql_ignores_select_join _ "select 1 from m" "t" rfl ["zz"]
    ["LEFT JOIN q ON 2=2"]

/-- C9: `delete` submits exactly the SQL produced by setting `custom_sql` to
`"delete from <table>"` and rendering via the custom-SQL path — so the
builder's WHERE, ORDER BY, LIMIT and OFFSET are still appended — and returns
the client's affected-row count. -/
theorem delete_uses_custom_sql_path (T : Type) (w : QueryWrapper) (c : Client T)
    (t : String) :
    w.delete T c t =
      (c.exec_rows_affected ((w.custom_sql' ("delete from " ++ t)).build_sql t),
        [(w.custom_sql' ("delete from " ++ t)).build_sql t]) ∧
    (w.custom_sql' ("delete from " ++ t)).build_sql t =
      (if w.where_conditions.isEmpty then "delete from " ++ t
       else mergedWhere ("delete from " ++ t) w.where_conditions) ++
        orderSeg w.order_by ++ limitSeg w.limit ++ offsetSeg w.offset := by
  obtain ⟨wc, ob, sc, lim, off, cs, jc⟩ := w
  constructor
  · rfl
  · simp only [QueryWrapper.build_sql, QueryWrapper.custom_sql', mergedWhere,
      orderSeg, limitSeg, offsetSeg]
    cases hb : strContainsSub (strUpper ("delete from " ++ t)) "WHERE" <;>
      cases wc <;> cases ob <;> cases lim <;> cases off <;>
      simp [String.append_assoc, String.append_empty]

/-- Each condition call is one `where_conditions` push. -/
theorem applyCall_spec (w : QueryWrapper) (cc : CondCall) :
    applyCall w cc = { w with where_conditions := w.where_conditions ++ [predOf cc] } := by
  cases cc <;> rfl

/-- A sequence of condition calls appends its rendered predicates in call
order and touches nothing else. -/
theorem foldl_applyCall (calls : List CondCall) (wc ob sc : List String)
    (lim off : Option Nat) (cs : Option String) (jc : List String) :
    calls.foldl applyCall ⟨wc, ob, sc, lim, off, cs, jc⟩ =
      ⟨wc ++ calls.map predOf, ob, sc, lim, off, cs, jc⟩ := by
  induction calls generalizing wc with
  | nil => simp
  | cons cc rest ih =>
    rw [List.foldl_cons, applyCall_spec]
    simp only [List.map_cons]
    rw [show ({ (⟨wc, ob, sc, lim, off, cs, jc⟩ : QueryWrapper) with
        where_conditions := wc ++ [predOf cc] } : QueryWrapper) =
      ⟨wc ++ [predOf cc], ob, sc, lim, off, cs, jc⟩ from rfl, ih]
    simp

/-- C7: each condition call appends exactly one predicate, leaving the earlier
ones in place; a non-empty call sequence applied to a fresh builder renders a
WHERE clause holding each predicate exactly once, AND-joined, in call order. -/
theorem cond_calls_accumulate (w : QueryWrapper) (cc : CondCall)
    (calls : List CondCall) (t : String) (h : calls ≠ []) :
    (applyCall w cc).where_conditions = w.where_conditions ++ [predOf cc] ∧
    (calls.foldl applyCall QueryWrapper.new).where_conditions = calls.map predOf ∧
    (calls.foldl applyCall QueryWrapper.new).build_sql t =
      "SELECT * FROM " ++ t ++ " WHERE " ++
        String.intercalate " AND " (calls.map predOf) := by
  refine ⟨by rw [applyCall_spec], ?_, ?_⟩
  · show (calls.foldl applyCall ⟨[], [], [], none, none, none, []⟩).where_conditions = _
    rw [foldl_applyCall]
    simp
  · show (calls.foldl applyCall ⟨[], [], [], none, none, none, []⟩).build_sql t = _
    rw [foldl_applyCall]
    cases hc : calls.map predOf with
    | nil => exact absurd (List.map_eq_nil_iff.mp hc) h
    | cons p ps =>
      simp only [QueryWrapper.build_sql, List.nil_append]
      rfl

/-- C7 witness: `eq` then `like` on a fresh builder accumulates both
predicates in order and renders them AND-joined. -/
theorem cond_calls_accumulate_witness :
    ((applyCall QueryWrapper.new (CondCall.cgt "x" "2")).where_conditions =
        QueryWrapper.new.where_conditions ++ [predOf (CondCall.cgt "x" "2")] ∧
     ([CondCall.ceq "id" "1", CondCall.clike "name" "bo"].foldl applyCall
          QueryWrapper.new).where_conditions =
        [CondCall.ceq "id" "1", CondCall.clike "name" "bo"].map predOf ∧
     ([CondCall.ceq "id" "1", CondCall.clike "name" "bo"].foldl applyCall
          QueryWrapper.new).build_sql "t" =
        "SELECT * FROM " ++ "t" ++ " WHERE " ++
          String.intercalate " AND "
            ([CondCall.ceq "id" "1", CondCall.clike "name" "bo"].map predOf)) ∧
    ([CondCall.ceq "id" "1", CondCall.clike "name" "bo"].foldl applyCall
        QueryWrapper.new).build_sql "t" =
      "SELECT * FROM t WHERE id = '1' AND name LIKE '%bo%'" :=
  ⟨cond_calls_accumulate QueryWrapper.new (CondCall.cgt "x" "2")
      [CondCall.ceq "id" "1", CondCall.clike "name" "bo"] "t" (by decide),
   by decide⟩

/-- C5: when the client decodes the count query to 0, `page` submits exactly
one query (the count query) and returns the empty page with `total = 0`. -/
theorem page_total_zero_skips_data_query (T : Type) (w : QueryWrapper)
    (c : Client T) (t : String) (pn ps : Nat)
    (h : c.query_decode_count (w.build_count_sql t) = 0) :
    (w.page T c t pn ps).2 = [w.build_count_sql t] ∧
    (0 < ps → (w.page T c t pn ps).1 = some ⟨[], 0, pn, ps, 0, false⟩) := by
  constructor
  · simp [QueryWrapper.page, h]
  · intro hps
    have h3 : (ps - 1) / ps = 0 := Nat.div_eq_of_lt (by omega)
    simp [QueryWrapper.page, h, Page.new, h3]
    omega

/-- C5 witness: with a client decoding every count to 0, `page` issues exactly
the count query and returns the empty page. -/
theorem page_total_zero_skips_data_query_witness :
    (QueryWrapper.new.page Nat ⟨fun _ => 0, fun _ => [], fun _ => 0⟩ "t" 1 10).2 =
      [QueryWrapper.new.build_count_sql "t"] ∧
    (QueryWrapper.new.page Nat ⟨fun _ => 0, fun _ => [], fun _ => 0⟩ "t" 1 10).1 =
      some ⟨[], 0, 1, 10, 0, false⟩ ∧
    (QueryWrapper.new.page Nat ⟨fun _ => 0, fun _ => [], fun _ => 0⟩ "t" 1 10).2.length = 1 :=
  ⟨(page_total_zero_skips_data_query Nat QueryWrapper.new
      ⟨fun _ => 0, fun _ => [], fun _ => 0⟩ "t" 1 10 rfl).1,
   (page_total_zero_skips_data_query Nat QueryWrapper.new
      ⟨fun _ => 0, fun _ => [], fun _ => 0⟩ "t" 1 10 rfl).2 (by decide),
   by decide⟩

/-- C6: when the count decodes positively, `page` runs the data query on a
clone whose limit is `page_size` and whose offset is
`(page_no - 1) * page_size`, and any limit or offset the caller had set
beforehand is overwritten (the result does not depend on them). -/
theorem page_overwrites_limit_offset (T : Type) (w : QueryWrapper) (c : Client T)
    (t : String) (pn ps : Nat) (l0 o0 : Option Nat) (hpn : 1 ≤ pn)
    (h : 0 < c.query_decode_count (w.build_count_sql t)) :
    (w.page T c t pn ps).2 =
      [w.build_count_sql t,
        ({ w with limit := some ps, offset := some ((pn - 1) * ps) } :
          QueryWrapper).build_sql t] ∧
    ({ w with limit := l0, offset := o0 } : QueryWrapper).page T c t pn ps =
      w.page T c t pn ps := by
  obtain ⟨wc, ob, sc, lim, off, cs, jc⟩ := w
  refine ⟨?_, ?_⟩
  · simp only [QueryWrapper.page, QueryWrapper.limit', QueryWrapper.offset']
    rw [if_pos h]
  · have hc : QueryWrapper.build_count_sql ⟨wc, ob, sc, l0, o0, cs, jc⟩ t =
        QueryWrapper.build_count_sql ⟨wc, ob, sc, lim, off, cs, jc⟩ t := by
      cases cs <;> rfl
    simp only [QueryWrapper.page, QueryWrapper.limit', QueryWrapper.offset', hc]

/-- C6 witness: `page_no = 3`, `page_size = 20` yields the data query with
`LIMIT 20 OFFSET 40`, overwriting a caller-set limit 99 / offset 98. -/
theorem page_overwrites_limit_offset_witness :
    ((QueryWrapper.new.page Nat ⟨fun _ => 7, fun _ => [], fun _ => 0⟩ "t" 3 20).2 =
      [QueryWrapper.new.build_count_sql "t",
        ({ QueryWrapper.new with limit := some 20, offset := some ((3 - 1) * 20) } :
          QueryWrapper).build_sql "t"] ∧
     ({ QueryWrapper.new with limit := some 99, offset := some 98 } :
        QueryWrapper).page Nat ⟨fun _ => 7, fun _ => [], fun _ => 0⟩ "t" 3 20 =
       QueryWrapper.new.page Nat ⟨fun _ => 7, fun _ => [], fun _ => 0⟩ "t" 3 20) ∧
    (3 - 1) * 20 = 40 ∧
    (QueryWrapper.new.page Nat ⟨fun _ => 7, fun _ => [], fun _ => 0⟩ "t" 3 20).2 =
      ["SELECT COUNT(*) FROM t", "SELECT * FROM t LIMIT 20 OFFSET 40"] :=
  ⟨page_overwrites_limit_offset Nat QueryWrapper.new
      ⟨fun _ => 7, fun _ => [], fun _ => 0⟩ "t" 3 20 (some 99) (some 98)
      (by decide) (by decide),
   by decide, by decide⟩
